import Mathlib

/-!
# Passkey ceremony server (`server.js`)

A shallow embedding of the Express handlers of `server.js` and of the helper
functions they call.  The handlers are modelled as functions from the
request and the state of the `webauthnUsers` collection to the response and
the new state of the collection.

External collaborators (none of them is code of this repository) are the
fields of `Env`: the identity directory (`admin.auth()`), the WebAuthn
library (`@simplewebauthn/server`) and the process configuration.  The value
drawn by `uuidv4()` and the clock read by `new Date()` are arguments of the
handlers that use them.

The document store is a value: a call to it fails only by the checks it makes
on its arguments (a document id that does not name a document, an `undefined`
field, an `update` of a missing document), not by an outage.  A session cookie
is modelled by what `JSON.parse` makes of its text, and `JSON.parse` of the
text written by `JSON.stringify` gives back the object written.
-/

namespace Server

/-! ## Data model -/

/-- The `passKey` object written by `/verify-register` (lines 286-293). -/
structure PassKey where
  id : String
  publicKey : String
  counter : Nat
  deviceType : String
  backedUp : Bool
  transports : List String
deriving DecidableEq, Repr

/-- A document of the `webauthnUsers` collection, with the fields `createUser`
writes (lines 81-87).  `passKey` is optional because
`getUserByEmailWithCredentials` provides for rows without one (line 118). -/
structure UserDoc where
  id : String
  email : String
  passKey : Option PassKey
  firebaseUid : String
  createdAt : Nat
deriving DecidableEq, Repr

/-- The documents stored at or below the `webauthnUsers` collection, in query
order.  A document is stored under the path that its `id` field names
(`usersCollection.doc(id)`, line 81). -/
abbrev Collection := List UserDoc

/-- A thrown JavaScript `Error`; only its `message` is read (lines 313, 319, 440). -/
structure JsError where
  message : String
deriving DecidableEq, Repr

/-- Message of the error the store raises for `doc(id)` with an id that is not a
non-empty string (representative text). -/
def invalidPathMessage : String :=
  "Value for argument documentPath is not a valid resource path. Path must be a non-empty string."

/-- Message of the error the store raises for `doc(id)` with an id that
contains `//` (representative text). -/
def doubleSlashMessage : String :=
  "Value for argument documentPath is not a valid resource path. Paths must not contain //."

/-- Message of the error the store raises for `doc(id)` with an id that does
not name a document (representative text). -/
def notDocumentMessage : String :=
  "Value for argument documentPath must point to a document. Your path does not contain an even number of components."

/-- Message of the error the store raises for a document with an `undefined`
field (representative text). -/
def undefinedFieldMessage : String :=
  "Value for argument data is not a valid Firestore document. Cannot use undefined as a Firestore value."

/-- Message of the error the store raises for `update` of a missing document
(representative text). -/
def notFoundMessage : String := "5 NOT_FOUND: No document to update"

/-- Message of the `TypeError` raised by reading a property of `undefined` or
`null` (representative text). -/
def typeErrorMessage : String := "Cannot read properties of undefined"

/-- Message of the `SyntaxError` raised by `JSON.parse` (representative text). -/
def syntaxErrorMessage : String := "Unexpected token in JSON"

/-! ## The document store -/

/-- The test `s.includes(sub)`. -/
def includes (sub : List Char) : List Char → Bool
  | [] => sub.isPrefixOf []
  | c :: cs => sub.isPrefixOf (c :: cs) || includes sub cs

/-- The pieces of `s.split("/")`. -/
def splitOnSlash : List Char → List (List Char)
  | [] => [[]]
  | c :: cs =>
    if c = '/' then [] :: splitOnSlash cs
    else
      match splitOnSlash cs with
      | [] => [[c]]
      | seg :: rest => (c :: seg) :: rest

/-- The segments of a path relative to the collection: the non-empty pieces
between the slashes (a leading or trailing slash is allowed). -/
def pathSegments (id : String) : List String :=
  ((splitOnSlash id.data).filter (fun seg => !seg.isEmpty)).map String.mk

/-- The document that `usersCollection.doc(id)` names, as its path below the
collection, or `none` when the call throws.  By the checks of the client
library the id has to be a non-empty string without `//`, and the path has to
be the path of a document, which below a collection is a path with an odd
number of segments: `u-1`, `u-1/` and `/u-1` name the same document of the
collection, `a/b/c` names a document of a collection nested below it, and
`a/b` names no document. -/
def docPath (id : Option String) : Option (List String) :=
  match id with
  | none => none
  | some i =>
    if i = "" then none
    else if includes "//".data i.data then none
    else if (pathSegments i).length % 2 = 1 then some (pathSegments i)
    else none

/-- The error thrown by `usersCollection.doc(id)` when it throws. -/
def docPathError (id : Option String) : JsError :=
  match id with
  | none => ⟨invalidPathMessage⟩
  | some i =>
    if i = "" then ⟨invalidPathMessage⟩
    else if includes "//".data i.data then ⟨doubleSlashMessage⟩
    else ⟨notDocumentMessage⟩

/-- The path under which a document is stored, named by its `id` field. -/
def docKey (d : UserDoc) : Option (List String) := docPath (some d.id)

/-- A document of the collection itself, not of a collection nested below it:
its path has one segment. -/
def inCollection (d : UserDoc) : Bool :=
  match docKey d with
  | some [_] => true
  | _ => false

/-- Comparison of two segments, lexicographic on the characters. -/
def cmpChars : List Char → List Char → Ordering
  | [], [] => .eq
  | [], _ :: _ => .lt
  | _ :: _, [] => .gt
  | a :: as, b :: bs =>
    if a.toNat < b.toNat then .lt
    else if b.toNat < a.toNat then .gt
    else cmpChars as bs

/-- The order of document paths: lexicographic on the segments. -/
def pathLe : List String → List String → Bool
  | [], _ => true
  | _ :: _, [] => false
  | a :: as, b :: bs =>
    match cmpChars a.data b.data with
    | .lt => true
    | .gt => false
    | .eq => pathLe as bs

/-- Insertion of a document at its place in the order of document paths, the
order in which the store returns the documents of a query. -/
def insertDoc (d : UserDoc) : Collection → Collection
  | [] => [d]
  | x :: xs =>
    if pathLe (pathSegments d.id) (pathSegments x.id) then d :: x :: xs
    else x :: insertDoc d xs

/-- The effect of `set(d)` on the document at `path`: the document stored
there is replaced, or the document is added when there is none. -/
def docSet (db : Collection) (path : List String) (d : UserDoc) : Collection :=
  insertDoc d (db.filter (fun x => decide (docKey x ≠ some path)))

/-- The effect of `delete()` on the document at `path`. -/
def docDelete (db : Collection) (path : List String) : Collection :=
  db.filter (fun x => decide (docKey x ≠ some path))

/-- The passKey after `update({"passKey.counter": counter})`: the other fields
of an existing passKey are kept.  On a document without a passKey the store
creates a map holding only the counter; the typed record shows it with empty
other fields (`/verify-auth` never reaches the update for such a document,
reading `user.passKey.id` throws first). -/
def setCounter (counter : Nat) : Option PassKey → Option PassKey
  | some pk => some { pk with counter := counter }
  | none => some { id := "", publicKey := "", counter := counter, deviceType := "",
                   backedUp := false, transports := [] }

/-- The query `usersCollection.where("email", "==", email).get()` (lines 53,
109): the documents of the collection itself with that email. -/
def whereEmail (db : Collection) (email : String) : List UserDoc :=
  db.filter (fun x => inCollection x && decide (x.email = email))

/-- The function `getUserByEmail` (lines 51-63).  An `undefined` email makes
the query throw, which the function catches and answers with `null`. -/
def getUserByEmail (db : Collection) (email : Option String) : Option UserDoc :=
  match email with
  | none => none
  | some e =>
    match whereEmail db e with
    | [] => none
    | u :: _ => some u

/-- The function `getUserById` (lines 65-77).  When `doc(id)` throws, the
function catches it and answers `null`. -/
def getUserById (db : Collection) (id : Option String) : Option UserDoc :=
  match docPath id with
  | none => none
  | some path => db.find? (fun x => decide (docKey x = some path))

/-- The function `createUser` (lines 79-93): an unconditional `set` on the
document that `id` names; errors of the store are rethrown. -/
def createUser (db : Collection) (now : Nat) (id email : Option String)
    (passKey : PassKey) (firebaseUid : Option String) : Except JsError Collection :=
  match docPath id with
  | none => .error (docPathError id)
  | some path =>
    match id, email, firebaseUid with
    | some i, some e, some f =>
      .ok (docSet db path { id := i, email := e, passKey := some passKey,
                            firebaseUid := f, createdAt := now })
    | _, _, _ => .error ⟨undefinedFieldMessage⟩

/-- The function `updateUserCounter` (lines 95-104): an unconditional `update`
of the field `passKey.counter` of the document that `id` names; errors of the
store are rethrown. -/
def updateUserCounter (db : Collection) (id : String) (counter : Nat) :
    Except JsError Collection :=
  match docPath (some id) with
  | none => .error (docPathError (some id))
  | some path =>
    if db.any (fun x => decide (docKey x = some path)) then
      .ok (db.map (fun x =>
        if docKey x = some path then { x with passKey := setCounter counter x.passKey }
        else x))
    else .error ⟨notFoundMessage⟩

/-- The function `getUserByEmailWithCredentials` (lines 106-129): the first
document of the email query, when it has a passKey. -/
def getUserByEmailWithCredentials (db : Collection) (email : Option String) :
    Option UserDoc :=
  match email with
  | none => none
  | some e =>
    match whereEmail db e with
    | [] => none
    | userData :: _ => if userData.passKey.isSome then some userData else none

/-! ## Requests, responses and sessions -/

/-- The payload of a session cookie after `JSON.parse`: the fields that
`/init-register` (lines 240-245) and `/init-auth` (lines 368-372) put in it.
Every field may be missing, as in the `{}` used for an absent cookie. -/
structure SessionInfo where
  userId : Option String
  email : Option String
  firebaseUid : Option String
  challenge : Option String
deriving DecidableEq, Repr

/-- The string value of a cookie, by what `JSON.parse` makes of it. -/
inductive CookieValue
  /-- The empty string, which is falsy. -/
  | empty
  /-- A text on which `JSON.parse` throws. -/
  | invalid
  /-- The text `null`: reading a property of the result throws. -/
  | jsonNull
  /-- A JSON number, string, boolean or array: its properties read as `undefined`. -/
  | primitive
  /-- A JSON object with the given fields. -/
  | object (s : SessionInfo)
deriving DecidableEq, Repr

/-- The object `{}`. -/
def emptySession : SessionInfo :=
  { userId := none, email := none, firebaseUid := none, challenge := none }

/-- The result of `JSON.parse` followed by the first property read. -/
def parseSession : CookieValue → Except JsError SessionInfo
  | .empty => .error ⟨syntaxErrorMessage⟩
  | .invalid => .error ⟨syntaxErrorMessage⟩
  | .jsonNull => .error ⟨typeErrorMessage⟩
  | .primitive => .ok emptySession
  | .object s => .ok s

/-- The expression `req.cookies.regInfo ? JSON.parse(req.cookies.regInfo) : {}`
(line 267), which is also `JSON.parse(req.cookies.authInfo || "{}")` (line 396). -/
def readSession : Option CookieValue → Except JsError SessionInfo
  | none => .ok emptySession
  | some .empty => .ok emptySession
  | some v => parseSession v

/-- JavaScript truthiness of a value that is a string or `undefined`. -/
def truthy : Option String → Bool
  | none => false
  | some s => decide (s ≠ "")

/-- The field `response` of the posted credential. -/
structure AuthenticatorResponse where
  clientDataJSON : String
  authenticatorData : String
  /-- The signature counter carried in the authenticator data. -/
  signCount : Nat
  signature : String
  transports : Option (List String)
deriving DecidableEq, Repr

/-- The posted credential, `req.body`. -/
structure RequestBody where
  rawId : String
  response : Option AuthenticatorResponse
deriving DecidableEq, Repr

/-- What the handlers read of a request. -/
structure Request where
  queryEmail : Option String
  authorization : Option String
  regInfo : Option CookieValue
  authInfo : Option CookieValue
  body : RequestBody
deriving DecidableEq, Repr

/-- A value of a field of a JSON response. -/
inductive JsonValue
  | undefined
  | str (s : String)
  | bool (b : Bool)
deriving DecidableEq, Repr

/-- A string that may be `undefined`, as a JSON value. -/
def optStr : Option String → JsonValue
  | none => .undefined
  | some s => .str s

/-- The options object returned by the WebAuthn library: the challenge, and the
rest of it as one text. -/
structure CeremonyOptions where
  challenge : String
  detail : String
deriving DecidableEq, Repr

/-- The body of a response. -/
inductive ResBody
  | fields (l : List (String × JsonValue))
  | options (o : CeremonyOptions)
deriving DecidableEq, Repr

/-- A cookie set by `res.cookie` (lines 238-252, 366-379). -/
structure SetCookie where
  name : String
  value : CookieValue
  httpOnly : Bool
  maxAge : Nat
  secure : Bool
  sameSite : String
deriving DecidableEq, Repr

/-- A response: status, body, the cookies set and the cookies cleared. -/
structure Response where
  status : Nat
  body : ResBody
  cookies : List SetCookie
  cleared : List String
deriving DecidableEq, Repr

/-- The response `res.status(status).json({ error: msg })`. -/
def errorResponse (status : Nat) (msg : String) : Response :=
  { status := status, body := .fields [("error", .str msg)], cookies := [], cleared := [] }

/-! ## External collaborators -/

/-- Outcome of `admin.auth().getUserByEmail(email)`. -/
inductive DirectoryResult
  | found (uid : String)
  /-- Rejected with `error.code === "auth/user-not-found"`. -/
  | userNotFound
  /-- Rejected with another error. -/
  | failure
deriving DecidableEq, Repr

/-- Outcome of `admin.auth().verifyIdToken(idToken)`. -/
inductive TokenResult
  | rejected
  | decoded (email : Option String)
deriving DecidableEq, Repr

/-- Argument of `generateRegistrationOptions` (lines 224-236). -/
structure RegistrationOptionsInput where
  rpID : String
  rpName : String
  userName : String
  userDisplayName : String
  userID : List Nat
  attestationType : String
  residentKey : String
  userVerification : String
  requireResidentKey : Bool
deriving DecidableEq, Repr

/-- Argument of `generateAuthenticationOptions` (lines 354-364). -/
structure AuthenticationOptionsInput where
  rpID : String
  allowCredentialId : String
  allowCredentialType : String
  allowCredentialTransports : List String
  userVerification : String
deriving DecidableEq, Repr

/-- Argument of `verifyRegistrationResponse` (lines 275-281). -/
structure RegistrationVerifyInput where
  response : RequestBody
  expectedChallenge : String
  expectedOrigin : String
  expectedRPID : String
  requireUserVerification : Bool
deriving DecidableEq, Repr

/-- The `registrationInfo` of a verified registration, with the fields read at
lines 287-291. -/
structure RegistrationInfo where
  credentialID : String
  credentialPublicKey : String
  counter : Nat
  credentialDeviceType : String
  credentialBackedUp : Bool
deriving DecidableEq, Repr

/-- Result of `verifyRegistrationResponse`; `registrationInfo` is optional in
the library and tested at line 283. -/
structure RegistrationVerification where
  verified : Bool
  registrationInfo : Option RegistrationInfo
deriving DecidableEq, Repr

/-- Argument of `verifyAuthenticationResponse` (lines 408-420). -/
structure AuthenticationVerifyInput where
  response : RequestBody
  expectedChallenge : String
  expectedOrigin : String
  expectedRPID : String
  credentialID : String
  credentialPublicKey : String
  counter : Nat
  transports : List String
  requireUserVerification : Bool
deriving DecidableEq, Repr

/-- Result of `verifyAuthenticationResponse`: `verified` and
`authenticationInfo.newCounter`. -/
structure AuthenticationVerification where
  verified : Bool
  newCounter : Nat
deriving DecidableEq, Repr

/-- The configuration of the process and its external collaborators. -/
structure Env where
  CLIENT_URL : String
  RP_ID : String
  RP_NAME : String
  /-- The test `process.env.NODE_ENV === "production"`. -/
  production : Bool
  /-- The call `admin.auth().getUserByEmail`. -/
  directoryLookup : String → DirectoryResult
  /-- The call `admin.auth().verifyIdToken`. -/
  verifyIdToken : String → TokenResult
  /-- The library function; `none` when it throws. -/
  generateRegistrationOptions : RegistrationOptionsInput → Option CeremonyOptions
  /-- The library function; `none` when it throws. -/
  generateAuthenticationOptions : AuthenticationOptionsInput → Option CeremonyOptions
  /-- The library function; it returns a result or throws an error. -/
  verifyRegistrationResponse : RegistrationVerifyInput → Except JsError RegistrationVerification
  /-- The library function; it returns a result or throws an error. -/
  verifyAuthenticationResponse :
    AuthenticationVerifyInput → Except JsError AuthenticationVerification

/-! ## String helpers -/

/-- The first piece of `s.split(sep)`: the characters of `s` before the first
occurrence of `sep`. -/
def takeUntil (sep : List Char) : List Char → List Char
  | [] => []
  | c :: cs => if sep.isPrefixOf (c :: cs) then [] else c :: takeUntil sep cs

/-- The function `stringToUint8Array` (lines 46-49): the UTF-8 bytes of the string. -/
def stringToUint8Array (str : String) : List Nat :=
  str.toUTF8.data.toList.map (fun b => b.toNat)

/-- The test `authHeader.startsWith("Bearer ")`. -/
def startsWithBearer (authHeader : String) : Bool :=
  "Bearer ".data.isPrefixOf authHeader.data

/-- The expression `authHeader.split("Bearer ")[1]` for a header that starts
with `Bearer `: what follows it, up to the next occurrence of the separator. -/
def bearerToken (authHeader : String) : String :=
  String.mk (takeUntil "Bearer ".data (authHeader.data.drop 7))

/-! ## The handlers -/

/-- The 5-minute `maxAge` of the session cookies, `5 * 60 * 1000` ms. -/
def sessionMaxAge : Nat := 5 * 60 * 1000

/-- The options of the session cookies (lines 246-251, 373-378). -/
def sessionCookie (env : Env) (name : String) (s : SessionInfo) : SetCookie :=
  { name := name, value := .object s, httpOnly := true, maxAge := sessionMaxAge,
    secure := env.production, sameSite := if env.production then "none" else "lax" }

/-- The handler of `GET /init-register` (lines 191-260).  `uuid` is the value
returned by `uuidv4()`. -/
def initRegister (env : Env) (db : Collection) (uuid : String) (req : Request) :
    Response × Collection :=
  if truthy req.queryEmail then
    let email := req.queryEmail.getD ""
    match env.directoryLookup email with
    | .userNotFound => (errorResponse 400 "No user with this email. Please sign up first.", db)
    | .failure => (errorResponse 500 "Failed to verify user", db)
    | .found firebaseUid =>
      match getUserByEmailWithCredentials db (some email) with
      | some _ =>
        (errorResponse 400
          "User already has biometric credentials. Please use biometric login instead.", db)
      | none =>
        let userId := uuid
        match env.generateRegistrationOptions
            { rpID := env.RP_ID, rpName := env.RP_NAME, userName := email,
              userDisplayName := email, userID := stringToUint8Array userId,
              attestationType := "none", residentKey := "preferred",
              userVerification := "discouraged", requireResidentKey := false } with
        | none => (errorResponse 500 "Failed to generate registration options", db)
        | some options =>
          ({ status := 200, body := .options options,
             cookies := [sessionCookie env "regInfo"
               { userId := some userId, email := some email,
                 firebaseUid := some firebaseUid, challenge := some options.challenge }],
             cleared := [] }, db)
  else (errorResponse 400 "Email is required", db)

/-- The argument of `verifyRegistrationResponse` at lines 275-281. -/
def registrationVerifyInput (env : Env) (req : Request) (regInfo : SessionInfo) :
    RegistrationVerifyInput :=
  { response := req.body, expectedChallenge := regInfo.challenge.getD "",
    expectedOrigin := env.CLIENT_URL, expectedRPID := env.RP_ID,
    requireUserVerification := false }

/-- The argument of `verifyAuthenticationResponse` at lines 408-420. -/
def authenticationVerifyInput (env : Env) (req : Request) (authInfo : SessionInfo)
    (passKey : PassKey) : AuthenticationVerifyInput :=
  { response := req.body, expectedChallenge := authInfo.challenge.getD "",
    expectedOrigin := env.CLIENT_URL, expectedRPID := env.RP_ID,
    credentialID := passKey.id, credentialPublicKey := passKey.publicKey,
    counter := passKey.counter, transports := passKey.transports,
    requireUserVerification := false }

/-- The passKey built from a verified registration at lines 286-293. -/
def passKeyOf (registrationInfo : RegistrationInfo) (response : AuthenticatorResponse) :
    PassKey :=
  { id := registrationInfo.credentialID,
    publicKey := registrationInfo.credentialPublicKey,
    counter := registrationInfo.counter,
    deviceType := registrationInfo.credentialDeviceType,
    backedUp := registrationInfo.credentialBackedUp,
    transports := response.transports.getD ["internal"] }

/-- The `catch` block of `/verify-register` (lines 310-320). -/
def verifyRegisterCatch (error : JsError) : Response :=
  if includes "user verification".data error.message.data then
    errorResponse 400
      "Biometric verification failed. Please try again and make sure to complete the fingerprint/face recognition."
  else errorResponse 400 error.message

/-- The handler of `POST /verify-register` (lines 262-321).  `now` is the value
of `new Date()` in `createUser`. -/
def verifyRegister (env : Env) (db : Collection) (now : Nat) (req : Request) :
    Response × Collection :=
  match readSession req.regInfo with
  | .error e => (verifyRegisterCatch e, db)
  | .ok regInfo =>
    if !truthy regInfo.challenge then
      (errorResponse 400 "Registration session expired. Please try again.", db)
    else
      match env.verifyRegistrationResponse (registrationVerifyInput env req regInfo) with
      | .error e => (verifyRegisterCatch e, db)
      | .ok verification =>
        match verification.verified, verification.registrationInfo with
        | true, some registrationInfo =>
          match req.body.response with
          | none => (verifyRegisterCatch ⟨typeErrorMessage⟩, db)
          | some response =>
            match createUser db now regInfo.userId regInfo.email
                (passKeyOf registrationInfo response) regInfo.firebaseUid with
            | .error e => (verifyRegisterCatch e, db)
            | .ok db' =>
              ({ status := 200,
                 body := .fields [("verified", .bool verification.verified),
                                  ("userId", optStr regInfo.userId),
                                  ("email", optStr regInfo.email)],
                 cookies := [], cleared := ["regInfo"] }, db')
        | _, _ =>
          ({ status := 400,
             body := .fields [("verified", .bool false),
               ("error", .str "Biometric registration failed. Please make sure to complete the biometric verification.")],
             cookies := [], cleared := [] }, db)

/-- The handler of `GET /init-auth` (lines 323-392). -/
def initAuth (env : Env) (db : Collection) (req : Request) : Response × Collection :=
  if truthy req.queryEmail then
    let email := req.queryEmail.getD ""
    match env.directoryLookup email with
    | .userNotFound => (errorResponse 400 "No user with this email. Please sign up first.", db)
    | .failure => (errorResponse 500 "Failed to verify user", db)
    | .found _ =>
      match getUserByEmailWithCredentials db (some email) with
      | none =>
        ({ status := 400,
           body := .fields [("error", .str "No biometric credentials found for this email. Please register your biometrics first."),
                            ("needsRegistration", .bool true)],
           cookies := [], cleared := [] }, db)
      | some user =>
        match user.passKey with
        | none => (errorResponse 500 "Failed to generate authentication options", db)
        | some passKey =>
          match env.generateAuthenticationOptions
              { rpID := env.RP_ID, allowCredentialId := passKey.id,
                allowCredentialType := "public-key",
                allowCredentialTransports := passKey.transports,
                userVerification := "discouraged" } with
          | none => (errorResponse 500 "Failed to generate authentication options", db)
          | some options =>
            ({ status := 200, body := .options options,
               cookies := [sessionCookie env "authInfo"
                 { userId := some user.id, email := some user.email,
                   firebaseUid := none, challenge := some options.challenge }],
               cleared := [] }, db)
  else (errorResponse 400 "Email is required", db)

/-- The handler of `POST /verify-auth` (lines 394-442). -/
def verifyAuth (env : Env) (db : Collection) (req : Request) : Response × Collection :=
  match readSession req.authInfo with
  | .error e => (errorResponse 400 e.message, db)
  | .ok authInfo =>
    if !truthy authInfo.challenge then
      (errorResponse 400 "Authentication session expired. Please try again.", db)
    else
      match getUserById db authInfo.userId with
      | none => (errorResponse 400 "Invalid user session", db)
      | some user =>
        match user.passKey with
        | none => (errorResponse 400 typeErrorMessage, db)
        | some passKey =>
          match env.verifyAuthenticationResponse
              (authenticationVerifyInput env req authInfo passKey) with
          | .error e => (errorResponse 400 e.message, db)
          | .ok verification =>
            if verification.verified then
              match updateUserCounter db user.id verification.newCounter with
              | .error e => (errorResponse 400 e.message, db)
              | .ok db' =>
                ({ status := 200,
                   body := .fields [("verified", .bool verification.verified),
                                    ("userId", .str user.id),
                                    ("email", .str user.email),
                                    ("firebaseUid", .str user.firebaseUid),
                                    ("displayName",
                                      .str (String.mk (takeUntil "@".data user.email.data)))],
                   cookies := [], cleared := ["authInfo"] }, db')
            else
              ({ status := 400,
                 body := .fields [("verified", .bool false),
                                  ("error", .str "Biometric authentication failed")],
                 cookies := [], cleared := [] }, db)

/-- The test `!authHeader || !authHeader.startsWith("Bearer ")` (lines 447, 470). -/
def missingBearer (authHeader : Option String) : Bool :=
  match authHeader with
  | none => true
  | some h => !startsWithBearer h

/-- The handler of `GET /biometric-status` (lines 444-465). -/
def biometricStatus (env : Env) (db : Collection) (req : Request) : Response × Collection :=
  if missingBearer req.authorization then (errorResponse 401 "Unauthorized", db)
  else
    let idToken := bearerToken (req.authorization.getD "")
    match env.verifyIdToken idToken with
    | .rejected => (errorResponse 500 "Failed to get biometric status", db)
    | .decoded email =>
      let user := getUserByEmailWithCredentials db email
      ({ status := 200,
         body := .fields [("hasBiometric", .bool user.isSome), ("email", optStr email)],
         cookies := [], cleared := [] }, db)

/-- The handler of `DELETE /biometric-credentials` (lines 467-489). -/
def removeCredentials (env : Env) (db : Collection) (req : Request) : Response × Collection :=
  if missingBearer req.authorization then (errorResponse 401 "Unauthorized", db)
  else
    let idToken := bearerToken (req.authorization.getD "")
    match env.verifyIdToken idToken with
    | .rejected => (errorResponse 500 "Failed to remove biometric credentials", db)
    | .decoded email =>
      match getUserByEmail db email with
      | some user =>
        match docPath (some user.id) with
        | none => (errorResponse 500 "Failed to remove biometric credentials", db)
        | some path =>
          ({ status := 200,
             body := .fields [("success", .bool true),
                              ("message", .str "Biometric credentials removed")],
             cookies := [], cleared := [] }, docDelete db path)
      | none => (errorResponse 404 "No biometric credentials found", db)

/-! ## `/verify-auth` in two steps

The handler suspends at its `await`s, so another call can run between the
read of the document (line 403) and the write of the counter (line 423). -/

/-- What a `/verify-auth` call holds once the verifier has returned: the
document it read and the result of the verifier. -/
structure PendingAuth where
  user : UserDoc
  verification : AuthenticationVerification
deriving DecidableEq, Repr

/-- Lines 396-420 of `/verify-auth`: the session, the read of the document and
the verification.  An early answer is returned as an error. -/
def verifyAuthRead (env : Env) (db : Collection) (req : Request) :
    Except Response PendingAuth :=
  match readSession req.authInfo with
  | .error e => .error (errorResponse 400 e.message)
  | .ok authInfo =>
    if !truthy authInfo.challenge then
      .error (errorResponse 400 "Authentication session expired. Please try again.")
    else
      match getUserById db authInfo.userId with
      | none => .error (errorResponse 400 "Invalid user session")
      | some user =>
        match user.passKey with
        | none => .error (errorResponse 400 typeErrorMessage)
        | some passKey =>
          match env.verifyAuthenticationResponse
              (authenticationVerifyInput env req authInfo passKey) with
          | .error e => .error (errorResponse 400 e.message)
          | .ok verification => .ok { user := user, verification := verification }

/-- Lines 422-437 of `/verify-auth`: the write of the counter and the answer,
on the state of the collection at the time of the write. -/
def verifyAuthWrite (db : Collection) (p : PendingAuth) : Response × Collection :=
  if p.verification.verified then
    match updateUserCounter db p.user.id p.verification.newCounter with
    | .error e => (errorResponse 400 e.message, db)
    | .ok db' =>
      ({ status := 200,
         body := .fields [("verified", .bool p.verification.verified),
                          ("userId", .str p.user.id),
                          ("email", .str p.user.email),
                          ("firebaseUid", .str p.user.firebaseUid),
                          ("displayName",
                            .str (String.mk (takeUntil "@".data p.user.email.data)))],
         cookies := [], cleared := ["authInfo"] }, db')
  else
    ({ status := 400,
       body := .fields [("verified", .bool false),
                        ("error", .str "Biometric authentication failed")],
       cookies := [], cleared := [] }, db)

/-! ## Sequences of calls and observations of the state -/

/-- The state of the collection after a sequence of `/verify-auth` calls. -/
def runVerifyAuth (env : Env) (db : Collection) : List Request → Collection
  | [] => db
  | req :: reqs => runVerifyAuth env (verifyAuth env db req).2 reqs

/-- The counter stored for the credential of the document `id`. -/
def storedCounter (db : Collection) (id : String) : Option Nat :=
  (getUserById db (some id)).bind (fun u => u.passKey.map (fun pk => pk.counter))

/-- The number of credentials the collection holds for an email: the documents
with that email that have a passKey. -/
def credentialCount (db : Collection) (email : String) : Nat :=
  (db.filter (fun x => decide (x.email = email) && x.passKey.isSome)).length

/-- The value of the cookie `name` set by a response, if it sets one. -/
def cookieSet (res : Response) (name : String) : Option CookieValue :=
  (res.cookies.find? (fun c => decide (c.name = name))).map (fun c => c.value)

/-! ## A concrete configuration

Used to evaluate the handlers on explicit requests. -/

/-- A stand-in of the registration verifier: it accepts a response whose
client data carries the expected challenge, and throws otherwise. -/
def sampleVerifyRegistration (inp : RegistrationVerifyInput) :
    Except JsError RegistrationVerification :=
  match inp.response.response with
  | none => .error ⟨typeErrorMessage⟩
  | some r =>
    if r.clientDataJSON = inp.expectedChallenge then
      .ok { verified := true,
            registrationInfo := some
              { credentialID := inp.response.rawId, credentialPublicKey := r.authenticatorData,
                counter := r.signCount, credentialDeviceType := "singleDevice",
                credentialBackedUp := false } }
    else .error ⟨"Unexpected registration response challenge"⟩

/-- A stand-in of the authentication verifier with the counter rule of the
WebAuthn library: a response whose client data carries the expected challenge
is accepted unless one of the two counters is positive and the counter of the
response is not above the stored one. -/
def sampleVerifyAuthentication (inp : AuthenticationVerifyInput) :
    Except JsError AuthenticationVerification :=
  match inp.response.response with
  | none => .error ⟨typeErrorMessage⟩
  | some r =>
    if r.clientDataJSON = inp.expectedChallenge then
      if (0 < r.signCount ∨ 0 < inp.counter) ∧ r.signCount ≤ inp.counter then
        .error ⟨"Response counter value was lower than expected"⟩
      else .ok { verified := true, newCounter := r.signCount }
    else .error ⟨"Unexpected authentication response challenge"⟩

/-- A configuration whose directory knows `ada@example.com` and whose token
verification accepts the token `good`. -/
def sampleEnv : Env :=
  { CLIENT_URL := "http://localhost:5173", RP_ID := "localhost", RP_NAME := "City Pulse",
    production := false,
    directoryLookup := fun email =>
      if email = "ada@example.com" then .found "fb-ada" else .userNotFound,
    verifyIdToken := fun t => if t = "good" then .decoded (some "ada@example.com") else .rejected,
    generateRegistrationOptions := fun _ => some { challenge := "reg-challenge", detail := "" },
    generateAuthenticationOptions := fun _ => some { challenge := "auth-challenge", detail := "" },
    verifyRegistrationResponse := sampleVerifyRegistration,
    verifyAuthenticationResponse := sampleVerifyAuthentication }

/-- A request with nothing in it. -/
def blankRequest : Request :=
  { queryEmail := none, authorization := none, regInfo := none, authInfo := none,
    body := { rawId := "", response := none } }

/-- The credential posted by the authenticator `cred-1` in answer to a challenge,
with a signature counter. -/
def sampleBody (challenge : String) (signCount : Nat) : RequestBody :=
  { rawId := "cred-1",
    response := some { clientDataJSON := challenge, authenticatorData := "pk-1",
                       signCount := signCount, signature := "sig", transports := none } }

/-- The document of `ada@example.com` with the credential `cred-1` and a counter. -/
def sampleDoc (counter : Nat) : UserDoc :=
  { id := "u-1", email := "ada@example.com",
    passKey := some { id := "cred-1", publicKey := "pk-1", counter := counter,
                      deviceType := "singleDevice", backedUp := false,
                      transports := ["internal"] },
    firebaseUid := "fb-ada", createdAt := 10 }

/-- A second credential, of another account. -/
def evePassKey : PassKey :=
  { id := "cred-2", publicKey := "pk-2", counter := 0, deviceType := "multiDevice",
    backedUp := true, transports := ["usb"] }

/-- A session payload as `/init-register` writes it for `ada@example.com`. -/
def sampleRegInfo : SessionInfo :=
  { userId := some "u-1", email := some "ada@example.com", firebaseUid := some "fb-ada",
    challenge := some "reg-challenge" }

/-- A session payload as `/init-auth` writes it for the document `u-1`. -/
def sampleAuthInfo : SessionInfo :=
  { userId := some "u-1", email := some "ada@example.com", firebaseUid := none,
    challenge := some "auth-challenge" }

/-- A `/verify-register` request that presents the session `sampleRegInfo` and a
credential answering the given challenge. -/
def registerRequest (answered : String) : Request :=
  { blankRequest with
    regInfo := some (.object sampleRegInfo), body := sampleBody answered 0 }

/-- A `/verify-auth` request that presents the session `sampleAuthInfo` and a
credential answering the given challenge with the given signature counter. -/
def authRequest (answered : String) (signCount : Nat) : Request :=
  { blankRequest with
    authInfo := some (.object sampleAuthInfo), body := sampleBody answered signCount }

/-- The response of a successful `/verify-register` (lines 295-302). -/
def registeredResponse (regInfo : SessionInfo) : Response :=
  { status := 200,
    body := .fields [("verified", .bool true), ("userId", optStr regInfo.userId),
                     ("email", optStr regInfo.email)],
    cookies := [], cleared := ["regInfo"] }

/-- A document of `ada@example.com` without a passKey, stored under an id that
comes before `u-1`. -/
def pendingDoc : UserDoc :=
  { id := "a-0", email := "ada@example.com", passKey := none, firebaseUid := "fb-ada",
    createdAt := 3 }

/-- A character of the values of `uuidv4()`: a lower-case hexadecimal digit or
`-`. -/
def isUuidChar (c : Char) : Bool :=
  (48 ≤ c.toNat && c.toNat ≤ 57) || (97 ≤ c.toNat && c.toNat ≤ 102) || c == '-'

/-- The shape of the values of `uuidv4()`: 36 characters, hexadecimal digits
and `-`. -/
def isUuid (s : String) : Bool :=
  s.data.length == 36 && s.data.all isUuidChar

/-- A value of the shape `uuidv4()` draws. -/
def sampleUuid : String := "3f2b8c1e-5d4a-4f6b-9a7c-0e1d2c3b4a59"

/-- A document stored under `sampleUuid`. -/
def enrolledDoc : UserDoc := { sampleDoc 5 with id := sampleUuid }

/-! ## Facts about the document store -/

theorem insertDoc_perm (d : UserDoc) (l : Collection) : (insertDoc d l).Perm (d :: l) := by
  induction l with
  | nil => simp [insertDoc]
  | cons y ys ih =>
    simp only [insertDoc]
    split
    · exact List.Perm.refl _
    · exact (List.Perm.cons y ih).trans (List.Perm.swap d y ys)

theorem find_insertDoc (q : UserDoc → Bool) (d : UserDoc) (l : Collection)
    (h : q d = true → ∀ x ∈ l, q x = false) :
    (insertDoc d l).find? q = if q d = true then some d else l.find? q := by
  induction l with
  | nil => by_cases hq : q d = true <;> simp [insertDoc, hq]
  | cons y ys ih =>
    have hys : q d = true → ∀ x ∈ ys, q x = false :=
      fun hq x hx => h hq x (List.mem_cons_of_mem _ hx)
    simp only [insertDoc]
    split
    · by_cases hq : q d = true
      · rw [List.find?_cons_of_pos _ hq, if_pos hq]
      · rw [List.find?_cons_of_neg _ hq, if_neg hq]
    · by_cases hy : q y = true
      · have hq : ¬ q d = true := fun hq => by
          have := h hq y (List.mem_cons_self _ _)
          rw [this] at hy
          cases hy
        rw [List.find?_cons_of_pos _ hy, if_neg hq, List.find?_cons_of_pos _ hy]
      · rw [List.find?_cons_of_neg _ hy, ih hys, List.find?_cons_of_neg _ hy]

theorem find_filter_of_imp (q r : UserDoc → Bool) (l : Collection)
    (h : ∀ x, q x = true → r x = true) :
    (l.filter r).find? q = l.find? q := by
  induction l with
  | nil => rfl
  | cons y ys ih =>
    by_cases hr : r y = true
    · rw [List.filter_cons_of_pos hr]
      by_cases hq : q y = true
      · rw [List.find?_cons_of_pos _ hq, List.find?_cons_of_pos _ hq]
      · rw [List.find?_cons_of_neg _ hq, List.find?_cons_of_neg _ hq]
        exact ih
    · have hq : ¬ q y = true := fun hq => hr (h y hq)
      rw [List.filter_cons_of_neg hr, List.find?_cons_of_neg _ hq]
      exact ih

/-- After `set` on the document at `path`, the document read there is the one
written, and the documents read at the other paths are the ones read before. -/
theorem getUserById_docSet (db : Collection) (path : List String) (d : UserDoc)
    (hd : docKey d = some path) (k : Option String) :
    getUserById (docSet db path d) k
      = if docPath k = some path then some d else getUserById db k := by
  unfold getUserById docSet
  cases hk : docPath k with
  | none => simp
  | some p' =>
    simp only []
    rw [find_insertDoc]
    · by_cases hp : p' = path
      · subst hp
        simp [hd]
      · have hne : ¬ docKey d = some p' := by
          rw [hd]
          intro e
          exact hp (Option.some.inj e).symm
        have hne' : ¬ (some p' : Option (List String)) = some path :=
          fun e => hp (Option.some.inj e)
        rw [if_neg (by simpa using hne), if_neg hne']
        apply find_filter_of_imp
        intro x hx
        have hx' : docKey x = some p' := by simpa using hx
        simp [hx', hp]
    · intro hq x hx
      have hq' : docKey d = some p' := by simpa using hq
      have hpp : p' = path := by
        rw [hd] at hq'
        exact (Option.some.inj hq').symm
      have hx' := (List.mem_filter.mp hx).2
      have hx'' : ¬ docKey x = some path := by simpa using hx'
      subst hpp
      simpa using hx''

/-! ## Document ids without a slash -/

theorem includes_slashes_false (l : List Char) (h : '/' ∉ l) :
    includes "//".data l = false := by
  induction l with
  | nil => rfl
  | cons c cs ih =>
    have hc : c ≠ '/' := fun e => h (e ▸ List.mem_cons_self _ _)
    have hcs : '/' ∉ cs := fun hm => h (List.mem_cons_of_mem _ hm)
    have hpre : "//".data.isPrefixOf (c :: cs) = false := by
      show (['/', '/'] : List Char).isPrefixOf (c :: cs) = false
      simp [List.isPrefixOf, Ne.symm hc]
    simp only [includes, hpre, ih hcs, Bool.or_self]

theorem splitOnSlash_no_slash (l : List Char) (h : '/' ∉ l) : splitOnSlash l = [l] := by
  induction l with
  | nil => rfl
  | cons c cs ih =>
    have hc : c ≠ '/' := fun e => h (e ▸ List.mem_cons_self _ _)
    have hcs : '/' ∉ cs := fun hm => h (List.mem_cons_of_mem _ hm)
    simp only [splitOnSlash, hc, if_false, ih hcs]

/-- A non-empty id without a slash names the document of the collection with
that name. -/
theorem docPath_plain (i : String) (hi : i ≠ "") (hslash : '/' ∉ i.data) :
    docPath (some i) = some [i] := by
  have hdata : i.data ≠ [] := by
    intro e
    apply hi
    cases i
    simp only at e
    subst e
    rfl
  have hseg : pathSegments i = [i] := by
    unfold pathSegments
    rw [splitOnSlash_no_slash _ hslash]
    have hne : (!i.data.isEmpty) = true := by
      cases hd : i.data with
      | nil => exact absurd hd hdata
      | cons _ _ => rfl
    simp only [List.filter, hne, List.map]
  unfold docPath
  simp only [hi, if_false, includes_slashes_false _ hslash, hseg]
  rfl

/-- The path that `doc(id)` names is made of the segments of the id. -/
theorem docPath_eq_segments (i : String) (path : List String)
    (h : docPath (some i) = some path) : pathSegments i = path := by
  unfold docPath at h
  simp only [] at h
  split at h
  · cases h
  · split at h
    · cases h
    · split at h
      · exact Option.some.inj h
      · cases h

/-! ## `createUser` -/

/-- C2, as stated, fails: a document stored under the id `u-1` exists, and
`createUser` with that id returns without error and replaces it by the new
document, with another email and another credential. -/
theorem createUser_replaces_existing_row :
    getUserById [sampleDoc 5] (some "u-1") = some (sampleDoc 5) ∧
    createUser [sampleDoc 5] 99 (some "u-1") (some "eve@example.com") evePassKey (some "fb-eve")
      = .ok [{ id := "u-1", email := "eve@example.com", passKey := some evePassKey,
               firebaseUid := "fb-eve", createdAt := 99 }] :=
  ⟨by decide, rfl⟩

/-- An id of the shape of the values of `uuidv4()` is not empty and has no
slash. -/
theorem isUuid_plain (i : String) (h : isUuid i = true) : i ≠ "" ∧ '/' ∉ i.data := by
  unfold isUuid at h
  simp only [Bool.and_eq_true, beq_iff_eq, List.all_eq_true] at h
  constructor
  · intro e
    rw [e] at h
    exact absurd h.1 (by decide)
  · intro hm
    exact absurd (h.2 _ hm) (by decide)

/-- C2, amended: `createUser` writes unconditionally.  For every state of the
collection and every internal id of the shape `uuidv4()` draws (36 characters,
hexadecimal digits and `-`), it returns without error whether or not a
document is stored under the id; afterwards the document under the id is the
new one (an existing one is overwritten) and the documents read under the ids
that name another document are the ones stored before. -/
theorem createUser_sets_row (db : Collection) (now : Nat) (i e f : String) (pk : PassKey)
    (hi : isUuid i = true) :
    ∃ db', createUser db now (some i) (some e) pk (some f) = .ok db' ∧
      getUserById db' (some i)
        = some { id := i, email := e, passKey := some pk, firebaseUid := f, createdAt := now } ∧
      ∀ k, pathSegments k ≠ [i] → getUserById db' (some k) = getUserById db (some k) := by
  have hp := docPath_plain i (isUuid_plain i hi).1 (isUuid_plain i hi).2
  have hkey : ∀ d : UserDoc, d.id = i → docKey d = some [i] := by
    intro d hd
    unfold docKey
    rw [hd]
    exact hp
  refine ⟨docSet db [i] { id := i, email := e, passKey := some pk, firebaseUid := f,
                          createdAt := now }, ?_, ?_, ?_⟩
  · simp [createUser, hp]
  · rw [getUserById_docSet _ _ _ (hkey _ rfl), if_pos hp]
  · intro k hk
    rw [getUserById_docSet _ _ _ (hkey _ rfl), if_neg]
    intro hkp
    exact hk (docPath_eq_segments k [i] hkp)

/-- An instance of `createUser_sets_row`: an id under which a document is
stored. -/
theorem createUser_sets_row_witness :
    isUuid sampleUuid = true ∧
    getUserById [enrolledDoc] (some sampleUuid) = some enrolledDoc ∧
    ∃ db', createUser [enrolledDoc] 99 (some sampleUuid) (some "eve@example.com") evePassKey
        (some "fb-eve") = .ok db' ∧
      getUserById db' (some sampleUuid)
        = some { id := sampleUuid, email := "eve@example.com", passKey := some evePassKey,
                 firebaseUid := "fb-eve", createdAt := 99 } ∧
      ∀ k, pathSegments k ≠ [sampleUuid] →
        getUserById db' (some k) = getUserById [enrolledDoc] (some k) :=
  ⟨by decide, by decide,
    createUser_sets_row [enrolledDoc] 99 sampleUuid "eve@example.com" "fb-eve" evePassKey
      (by decide)⟩

/-! ## The init handlers -/

theorem filter_eq_cons_of_find (q : UserDoc → Bool) (l : Collection) (u : UserDoc)
    (h : l.find? q = some u) : ∃ rest, l.filter q = u :: rest := by
  induction l with
  | nil => cases h
  | cons y ys ih =>
    by_cases hq : q y = true
    · rw [List.find?_cons_of_pos _ hq] at h
      cases h
      exact ⟨ys.filter q, List.filter_cons_of_pos hq⟩
    · rw [List.find?_cons_of_neg _ hq] at h
      obtain ⟨rest, hrest⟩ := ih h
      exact ⟨rest, by rw [List.filter_cons_of_neg hq, hrest]⟩

/-- When no document with the email has a passKey, the lookup by email finds
no credential. -/
theorem getUserByEmailWithCredentials_none (db : Collection) (email : String)
    (hzero : ∀ u ∈ db, u.email = email → u.passKey = none) :
    getUserByEmailWithCredentials db (some email) = none := by
  cases hw : whereEmail db email with
  | nil => simp [getUserByEmailWithCredentials, hw]
  | cons x xs =>
    have hx : x ∈ whereEmail db email := hw ▸ List.mem_cons_self x xs
    have hx' := List.mem_filter.mp hx
    have hxe : x.email = email := by
      have h2 := hx'.2
      simp only [Bool.and_eq_true, decide_eq_true_eq] at h2
      exact h2.2
    have : x.passKey = none := hzero x hx'.1 hxe
    simp [getUserByEmailWithCredentials, hw, this]

/-- C5, as stated, fails: the collection holds a credential for
`ada@example.com`, in the document `u-1`, and a document of the same email
without a passKey, `a-0`, that the email query returns first.  The lookup reads
the first document only and finds no credential, and `/init-register` answers
200 and sets the `regInfo` session cookie. -/
theorem initRegister_reads_first_row_only :
    sampleDoc 5 ∈ [pendingDoc, sampleDoc 5] ∧
    inCollection (sampleDoc 5) = true ∧
    (sampleDoc 5).email = "ada@example.com" ∧
    (sampleDoc 5).passKey.isSome = true ∧
    sampleEnv.directoryLookup "ada@example.com" = .found "fb-ada" ∧
    whereEmail [pendingDoc, sampleDoc 5] "ada@example.com" = [pendingDoc, sampleDoc 5] ∧
    getUserByEmailWithCredentials [pendingDoc, sampleDoc 5] (some "ada@example.com") = none ∧
    (initRegister sampleEnv [pendingDoc, sampleDoc 5] "u-2"
      { blankRequest with queryEmail := some "ada@example.com" }).1.status = 200 ∧
    cookieSet (initRegister sampleEnv [pendingDoc, sampleDoc 5] "u-2"
      { blankRequest with queryEmail := some "ada@example.com" }).1 "regInfo"
      = some (.object { userId := some "u-2", email := some "ada@example.com",
                        firebaseUid := some "fb-ada", challenge := some "reg-challenge" }) := by
  decide

/-- C5, amended: when the email is present in the request, the directory
resolves it and the first document of the collection with that email (in the
order of the query) has a passKey, `/init-register` answers 400 with the
already-enrolled error, sets no cookie (so no `regInfo` session) and leaves the
collection as it was. -/
theorem initRegister_already_enrolled (env : Env) (db : Collection) (uuid : String)
    (req : Request) (email uid : String) (u : UserDoc)
    (hq : req.queryEmail = some email) (he : email ≠ "")
    (hdir : env.directoryLookup email = .found uid)
    (hfirst : db.find? (fun x => inCollection x && decide (x.email = email)) = some u)
    (hpk : u.passKey.isSome = true) :
    (initRegister env db uuid req).1.status = 400 ∧
    (initRegister env db uuid req).1.body = .fields [("error", .str
      "User already has biometric credentials. Please use biometric login instead.")] ∧
    (initRegister env db uuid req).1.cookies = [] ∧
    cookieSet (initRegister env db uuid req).1 "regInfo" = none ∧
    (initRegister env db uuid req).2 = db := by
  obtain ⟨rest, hrest⟩ := filter_eq_cons_of_find _ db u hfirst
  have hu : getUserByEmailWithCredentials db (some email) = some u := by
    simp [getUserByEmailWithCredentials, whereEmail, hrest, hpk]
  simp [initRegister, hq, truthy, he, hdir, hu, errorResponse, cookieSet]

/-- An instance of `initRegister_already_enrolled`: `ada@example.com`, enrolled
with the credential `cred-1` in the document `u-1`, which comes after a
document of another email without a passKey. -/
theorem initRegister_already_enrolled_witness :
    ({ blankRequest with queryEmail := some "ada@example.com" } : Request).queryEmail
      = some "ada@example.com" ∧
    "ada@example.com" ≠ "" ∧
    sampleEnv.directoryLookup "ada@example.com" = .found "fb-ada" ∧
    [{ pendingDoc with email := "bob@example.com" }, sampleDoc 5].find?
      (fun x => inCollection x && decide (x.email = "ada@example.com")) = some (sampleDoc 5) ∧
    (sampleDoc 5).passKey.isSome = true ∧
    ((initRegister sampleEnv [{ pendingDoc with email := "bob@example.com" }, sampleDoc 5] "u-2"
        { blankRequest with queryEmail := some "ada@example.com" }).1.status = 400 ∧
     (initRegister sampleEnv [{ pendingDoc with email := "bob@example.com" }, sampleDoc 5] "u-2"
        { blankRequest with queryEmail := some "ada@example.com" }).1.body = .fields [("error", .str
      "User already has biometric credentials. Please use biometric login instead.")] ∧
     (initRegister sampleEnv [{ pendingDoc with email := "bob@example.com" }, sampleDoc 5] "u-2"
        { blankRequest with queryEmail := some "ada@example.com" }).1.cookies = [] ∧
     cookieSet (initRegister sampleEnv [{ pendingDoc with email := "bob@example.com" }, sampleDoc 5] "u-2"
        { blankRequest with queryEmail := some "ada@example.com" }).1 "regInfo" = none ∧
     (initRegister sampleEnv [{ pendingDoc with email := "bob@example.com" }, sampleDoc 5] "u-2"
        { blankRequest with queryEmail := some "ada@example.com" }).2
       = [{ pendingDoc with email := "bob@example.com" }, sampleDoc 5]) :=
  ⟨rfl, by decide, by decide, by decide, by decide,
    initRegister_already_enrolled sampleEnv [{ pendingDoc with email := "bob@example.com" }, sampleDoc 5] "u-2"
      { blankRequest with queryEmail := some "ada@example.com" } "ada@example.com" "fb-ada"
      (sampleDoc 5) rfl (by decide) (by decide) (by decide) (by decide)⟩

/-- C6: when the email is present in the request, the directory resolves it and
the collection holds no credential for it (no document with the email, or only
documents without a passKey), `/init-auth` answers 400 (not 500) with the
no-credential error and `needsRegistration: true`, sets no cookie (so no
`authInfo` session) and leaves the collection as it was. -/
theorem initAuth_no_credential (env : Env) (db : Collection) (req : Request)
    (email uid : String)
    (hq : req.queryEmail = some email) (he : email ≠ "")
    (hdir : env.directoryLookup email = .found uid)
    (hzero : ∀ u ∈ db, u.email = email → u.passKey = none) :
    (initAuth env db req).1.status = 400 ∧
    (initAuth env db req).1.body = .fields
      [("error", .str "No biometric credentials found for this email. Please register your biometrics first."),
       ("needsRegistration", .bool true)] ∧
    (initAuth env db req).1.cookies = [] ∧
    cookieSet (initAuth env db req).1 "authInfo" = none ∧
    (initAuth env db req).2 = db := by
  have hnone := getUserByEmailWithCredentials_none db email hzero
  simp [initAuth, hq, truthy, he, hdir, hnone, cookieSet]

/-- An instance of `initAuth_no_credential`: the document of `ada@example.com`
has no passKey. -/
theorem initAuth_no_credential_witness :
    ({ blankRequest with queryEmail := some "ada@example.com" } : Request).queryEmail
      = some "ada@example.com" ∧
    "ada@example.com" ≠ "" ∧
    sampleEnv.directoryLookup "ada@example.com" = .found "fb-ada" ∧
    (∀ u ∈ [{ sampleDoc 5 with passKey := none }],
      u.email = "ada@example.com" → u.passKey = none) ∧
    ((initAuth sampleEnv [{ sampleDoc 5 with passKey := none }]
        { blankRequest with queryEmail := some "ada@example.com" }).1.status = 400 ∧
     (initAuth sampleEnv [{ sampleDoc 5 with passKey := none }]
        { blankRequest with queryEmail := some "ada@example.com" }).1.body = .fields
      [("error", .str "No biometric credentials found for this email. Please register your biometrics first."),
       ("needsRegistration", .bool true)] ∧
     (initAuth sampleEnv [{ sampleDoc 5 with passKey := none }]
        { blankRequest with queryEmail := some "ada@example.com" }).1.cookies = [] ∧
     cookieSet (initAuth sampleEnv [{ sampleDoc 5 with passKey := none }]
        { blankRequest with queryEmail := some "ada@example.com" }).1 "authInfo" = none ∧
     (initAuth sampleEnv [{ sampleDoc 5 with passKey := none }]
        { blankRequest with queryEmail := some "ada@example.com" }).2
       = [{ sampleDoc 5 with passKey := none }]) :=
  ⟨rfl, by decide, by decide, by decide,
    initAuth_no_credential sampleEnv [{ sampleDoc 5 with passKey := none }]
      { blankRequest with queryEmail := some "ada@example.com" } "ada@example.com" "fb-ada"
      rfl (by decide) (by decide) (by decide)⟩

/-! ## The bearer-token handlers -/

/-- C7 at a failing input: the header `Bearer bad` is present and well formed,
the token verification rejects the token `bad`, and `/biometric-status` and
`DELETE /biometric-credentials` answer 500 with their generic errors, not 401;
the collection is as it was. -/
theorem rejected_token_answers_500 :
    missingBearer (some "Bearer bad") = false ∧
    sampleEnv.verifyIdToken (bearerToken "Bearer bad") = .rejected ∧
    biometricStatus sampleEnv [sampleDoc 5] { blankRequest with authorization := some "Bearer bad" }
      = (errorResponse 500 "Failed to get biometric status", [sampleDoc 5]) ∧
    removeCredentials sampleEnv [sampleDoc 5]
        { blankRequest with authorization := some "Bearer bad" }
      = (errorResponse 500 "Failed to remove biometric credentials", [sampleDoc 5]) := by
  decide

/-! ## The verify handlers without an accepted response -/

theorem verifyRegisterCatch_status (e : JsError) : (verifyRegisterCatch e).status = 400 := by
  unfold verifyRegisterCatch
  split <;> rfl

/-- C10: a `/verify-register` call (`reqR`) or `/verify-auth` call (`reqA`) that
carries no session cookie, or a session object without a challenge, is answered
400 with the session-expired error and the collection is as it was.  The
answer is the same for every configuration, so no verifier is consulted, and
for every state of the collection, so no credential is looked up before.  A
`/verify-auth` call (`reqI`) whose session has a challenge and an internal id
under which no document is stored is answered 400 with the invalid-session
error. -/
theorem verify_without_session (env : Env) (db : Collection) (now : Nat)
    (reqR reqA reqI : Request) (sI : SessionInfo)
    (hR : reqR.regInfo = none ∨
      ∃ s, reqR.regInfo = some (.object s) ∧ truthy s.challenge = false)
    (hA : reqA.authInfo = none ∨
      ∃ s, reqA.authInfo = some (.object s) ∧ truthy s.challenge = false)
    (hI : reqI.authInfo = some (.object sI)) (hch : truthy sI.challenge = true)
    (hmiss : getUserById db sI.userId = none) :
    verifyRegister env db now reqR
      = (errorResponse 400 "Registration session expired. Please try again.", db) ∧
    verifyAuth env db reqA
      = (errorResponse 400 "Authentication session expired. Please try again.", db) ∧
    verifyAuth env db reqI = (errorResponse 400 "Invalid user session", db) := by
  refine ⟨?_, ?_, ?_⟩
  · rcases hR with h | ⟨s, h, hs⟩
    · simp [verifyRegister, h, readSession, emptySession, truthy]
    · simp [verifyRegister, h, readSession, parseSession, hs]
  · rcases hA with h | ⟨s, h, hs⟩
    · simp [verifyAuth, h, readSession, emptySession, truthy]
    · simp [verifyAuth, h, readSession, parseSession, hs]
  · simp [verifyAuth, hI, readSession, parseSession, hch, hmiss]

/-- An instance of `verify_without_session`: no cookie, a session object without
fields, and a session for the id `u-1` on an empty collection. -/
theorem verify_without_session_witness :
    (blankRequest.regInfo = none ∨
      ∃ s, blankRequest.regInfo = some (.object s) ∧ truthy s.challenge = false) ∧
    (({ blankRequest with authInfo := some (.object emptySession) } : Request).authInfo = none ∨
      ∃ s, ({ blankRequest with authInfo := some (.object emptySession) } : Request).authInfo
        = some (.object s) ∧ truthy s.challenge = false) ∧
    ({ blankRequest with authInfo := some (.object sampleAuthInfo) } : Request).authInfo
      = some (.object sampleAuthInfo) ∧
    truthy sampleAuthInfo.challenge = true ∧
    getUserById [] sampleAuthInfo.userId = none ∧
    (verifyRegister sampleEnv [] 0 blankRequest
      = (errorResponse 400 "Registration session expired. Please try again.", []) ∧
     verifyAuth sampleEnv [] { blankRequest with authInfo := some (.object emptySession) }
      = (errorResponse 400 "Authentication session expired. Please try again.", []) ∧
     verifyAuth sampleEnv [] { blankRequest with authInfo := some (.object sampleAuthInfo) }
      = (errorResponse 400 "Invalid user session", [])) :=
  ⟨Or.inl rfl, Or.inr ⟨emptySession, rfl, rfl⟩, rfl, by decide, by decide,
    verify_without_session sampleEnv [] 0 blankRequest
      { blankRequest with authInfo := some (.object emptySession) }
      { blankRequest with authInfo := some (.object sampleAuthInfo) } sampleAuthInfo
      (Or.inl rfl) (Or.inr ⟨emptySession, rfl, rfl⟩) rfl (by decide) (by decide)⟩

/-- C8: when the registration verifier, called as `/verify-register` calls it,
throws or returns `verified = false`, the call is answered 400 and the
collection is as it was; and when the authentication verifier, called as
`/verify-auth` calls it, throws or returns `verified = false`, the call is
answered 400 and the collection is as it was: no document is created and no
counter is changed. -/
theorem rejected_verification_changes_nothing (env : Env) (db : Collection) (now : Nat)
    (reqR reqA : Request)
    (hR : ∀ s v, readSession reqR.regInfo = .ok s →
      env.verifyRegistrationResponse (registrationVerifyInput env reqR s) = .ok v →
      v.verified = false)
    (hA : ∀ s u pk v, readSession reqA.authInfo = .ok s → getUserById db s.userId = some u →
      u.passKey = some pk →
      env.verifyAuthenticationResponse (authenticationVerifyInput env reqA s pk) = .ok v →
      v.verified = false) :
    ((verifyRegister env db now reqR).1.status = 400 ∧ (verifyRegister env db now reqR).2 = db) ∧
    ((verifyAuth env db reqA).1.status = 400 ∧ (verifyAuth env db reqA).2 = db) := by
  constructor
  · unfold verifyRegister
    cases hs : readSession reqR.regInfo with
    | error e => simp [verifyRegisterCatch_status]
    | ok s =>
      simp only []
      split
      · simp [errorResponse]
      · cases hv : env.verifyRegistrationResponse (registrationVerifyInput env reqR s) with
        | error e => simp [verifyRegisterCatch_status]
        | ok v =>
          have hf := hR s v hs hv
          simp [hf]
  · unfold verifyAuth
    cases hs : readSession reqA.authInfo with
    | error e => simp [errorResponse]
    | ok s =>
      simp only []
      split
      · simp [errorResponse]
      · cases hu : getUserById db s.userId with
        | none => simp [errorResponse]
        | some u =>
          cases hpk : u.passKey with
          | none => simp [hpk, errorResponse]
          | some pk =>
            cases hv : env.verifyAuthenticationResponse
                (authenticationVerifyInput env reqA s pk) with
            | error e => simp [hpk, hv, errorResponse]
            | ok v =>
              have hf := hA s u pk v hs hu hpk hv
              simp [hpk, hv, hf]

/-- An instance of `rejected_verification_changes_nothing`: responses that answer
another challenge than the one of the session. -/
theorem rejected_verification_changes_nothing_witness :
    (∀ s v, readSession (registerRequest "other").regInfo = .ok s →
      sampleEnv.verifyRegistrationResponse
        (registrationVerifyInput sampleEnv (registerRequest "other") s) = .ok v →
      v.verified = false) ∧
    (∀ s u pk v, readSession (authRequest "other" 9).authInfo = .ok s →
      getUserById [sampleDoc 5] s.userId = some u → u.passKey = some pk →
      sampleEnv.verifyAuthenticationResponse
        (authenticationVerifyInput sampleEnv (authRequest "other" 9) s pk) = .ok v →
      v.verified = false) ∧
    (((verifyRegister sampleEnv [sampleDoc 5] 20 (registerRequest "other")).1.status = 400 ∧
      (verifyRegister sampleEnv [sampleDoc 5] 20 (registerRequest "other")).2 = [sampleDoc 5]) ∧
     ((verifyAuth sampleEnv [sampleDoc 5] (authRequest "other" 9)).1.status = 400 ∧
      (verifyAuth sampleEnv [sampleDoc 5] (authRequest "other" 9)).2 = [sampleDoc 5])) :=
  have hR : ∀ s v, readSession (registerRequest "other").regInfo = .ok s →
      sampleEnv.verifyRegistrationResponse
        (registrationVerifyInput sampleEnv (registerRequest "other") s) = .ok v →
      v.verified = false := by
    intro s v hs hv
    have hs' : s = sampleRegInfo := by
      have : (Except.ok sampleRegInfo : Except JsError SessionInfo) = .ok s := hs
      injection this with h
      exact h.symm
    subst hs'
    have hv' : (Except.error ⟨"Unexpected registration response challenge"⟩ :
        Except JsError RegistrationVerification) = .ok v := hv
    cases hv'
  have hA : ∀ s u pk v, readSession (authRequest "other" 9).authInfo = .ok s →
      getUserById [sampleDoc 5] s.userId = some u → u.passKey = some pk →
      sampleEnv.verifyAuthenticationResponse
        (authenticationVerifyInput sampleEnv (authRequest "other" 9) s pk) = .ok v →
      v.verified = false := by
    intro s u pk v hs hu hpk hv
    have hs' : s = sampleAuthInfo := by
      have : (Except.ok sampleAuthInfo : Except JsError SessionInfo) = .ok s := hs
      injection this with h
      exact h.symm
    subst hs'
    exfalso
    simp [sampleEnv, sampleVerifyAuthentication, authenticationVerifyInput, authRequest,
      sampleBody, sampleAuthInfo, blankRequest] at hv
  ⟨hR, hA, rejected_verification_changes_nothing sampleEnv [sampleDoc 5] 20
    (registerRequest "other") (authRequest "other" 9) hR hA⟩

/-! ## A successful `/verify-register` -/

theorem createUser_ok_inv (db db' : Collection) (now : Nat) (id email fuid : Option String)
    (pk : PassKey) (h : createUser db now id email pk fuid = .ok db') :
    ∃ i e f path, id = some i ∧ docPath (some i) = some path ∧ email = some e ∧
      fuid = some f ∧
      db' = docSet db path { id := i, email := e, passKey := some pk, firebaseUid := f,
                             createdAt := now } := by
  unfold createUser at h
  cases hp : docPath id with
  | none => simp [hp] at h
  | some path =>
    rw [hp] at h
    cases id with
    | none => simp at h
    | some i =>
      cases email with
      | none => simp at h
      | some e =>
        cases fuid with
        | none => simp at h
        | some f =>
          simp only [] at h
          injection h with h
          exact ⟨i, e, f, path, rfl, hp, rfl, rfl, h.symm⟩

/-- A `/verify-register` call answered 200 went through every step of the
handler: a session with a challenge, an accepting verifier, a posted
`response`, and a `createUser` that returned. -/
theorem verifyRegister_success_inv (env : Env) (db : Collection) (now : Nat) (req : Request)
    (h200 : (verifyRegister env db now req).1.status = 200) :
    ∃ s v info r db', readSession req.regInfo = .ok s ∧ truthy s.challenge = true ∧
      env.verifyRegistrationResponse (registrationVerifyInput env req s) = .ok v ∧
      v.verified = true ∧ v.registrationInfo = some info ∧ req.body.response = some r ∧
      createUser db now s.userId s.email (passKeyOf info r) s.firebaseUid = .ok db' ∧
      verifyRegister env db now req = (registeredResponse s, db') := by
  have hc : ∀ e, (verifyRegisterCatch e).status ≠ 200 := by
    intro e
    rw [verifyRegisterCatch_status]
    decide
  unfold verifyRegister at h200 ⊢
  cases hs : readSession req.regInfo with
  | error e =>
    rw [hs] at h200
    exact absurd h200 (hc e)
  | ok s =>
    rw [hs] at h200
    simp only [] at h200 ⊢
    cases hch : truthy s.challenge with
    | false => simp [hch, errorResponse] at h200
    | true =>
      simp only [hch, Bool.not_true, Bool.false_eq_true, if_false] at h200 ⊢
      cases hv : env.verifyRegistrationResponse (registrationVerifyInput env req s) with
      | error e =>
        rw [hv] at h200
        exact absurd h200 (hc e)
      | ok v =>
        rw [hv] at h200
        simp only [] at h200 ⊢
        cases hver : v.verified with
        | false => simp [hver] at h200
        | true =>
          cases hinfo : v.registrationInfo with
          | none => simp [hver, hinfo] at h200
          | some info =>
            simp only [hver, hinfo] at h200 ⊢
            cases hr : req.body.response with
            | none =>
              rw [hr] at h200
              exact absurd h200 (hc _)
            | some r =>
              rw [hr] at h200
              simp only [] at h200 ⊢
              cases hcu : createUser db now s.userId s.email (passKeyOf info r)
                  s.firebaseUid with
              | error e =>
                rw [hcu] at h200
                exact absurd h200 (hc e)
              | ok db' =>
                exact ⟨s, v, info, r, db', rfl, hch, hv, hver, hinfo, rfl, hcu, rfl⟩

/-- C9: a `/verify-register` call answered 200 had a session with an internal
id, an email and a directory uid, and a verifier result with a
`registrationInfo`; afterwards the document stored under the session id has
the credential id, public key, counter, device type and backed-up flag of the
`registrationInfo`, the email and directory uid of the session, and as
transports the ones the client posted, or `["internal"]` when it posted none;
the body of the response is `{verified: true, userId, email}` with the id and
email of the session. -/
theorem verifyRegister_persists_credential (env : Env) (db : Collection) (now : Nat)
    (req : Request) (h200 : (verifyRegister env db now req).1.status = 200) :
    ∃ s info r uid email fuid,
      readSession req.regInfo = .ok s ∧ s.userId = some uid ∧ s.email = some email ∧
      s.firebaseUid = some fuid ∧
      (∃ v, env.verifyRegistrationResponse (registrationVerifyInput env req s) = .ok v ∧
        v.verified = true ∧ v.registrationInfo = some info) ∧
      req.body.response = some r ∧
      getUserById (verifyRegister env db now req).2 (some uid)
        = some { id := uid, email := email,
                 passKey := some
                   { id := info.credentialID, publicKey := info.credentialPublicKey,
                     counter := info.counter, deviceType := info.credentialDeviceType,
                     backedUp := info.credentialBackedUp,
                     transports := r.transports.getD ["internal"] },
                 firebaseUid := fuid, createdAt := now } ∧
      (verifyRegister env db now req).1.body
        = .fields [("verified", .bool true), ("userId", .str uid), ("email", .str email)] := by
  obtain ⟨s, v, info, r, db', hs, _, hv, hver, hinfo, hr, hcu, hres⟩ :=
    verifyRegister_success_inv env db now req h200
  obtain ⟨i, e, f, path, hi, hpath, he, hf, hdb⟩ := createUser_ok_inv _ _ _ _ _ _ _ hcu
  refine ⟨s, info, r, i, e, f, hs, hi, he, hf, ⟨v, hv, hver, hinfo⟩, hr, ?_, ?_⟩
  · have hkey : ∀ d : UserDoc, d.id = i → docKey d = some path := by
      intro d hd
      unfold docKey
      rw [hd]
      exact hpath
    rw [hres, hdb]
    simp only []
    rw [getUserById_docSet _ _ _ (hkey _ rfl), if_pos hpath]
    simp [passKeyOf]
  · rw [hres]
    simp [registeredResponse, hi, he, optStr]

/-- An instance of `verifyRegister_persists_credential`: the registration of
`ada@example.com` on an empty collection. -/
theorem verifyRegister_persists_credential_witness :
    (verifyRegister sampleEnv [] 5 (registerRequest "reg-challenge")).1.status = 200 ∧
    ∃ s info r uid email fuid,
      readSession (registerRequest "reg-challenge").regInfo = .ok s ∧ s.userId = some uid ∧
      s.email = some email ∧ s.firebaseUid = some fuid ∧
      (∃ v, sampleEnv.verifyRegistrationResponse
          (registrationVerifyInput sampleEnv (registerRequest "reg-challenge") s) = .ok v ∧
        v.verified = true ∧ v.registrationInfo = some info) ∧
      (registerRequest "reg-challenge").body.response = some r ∧
      getUserById (verifyRegister sampleEnv [] 5 (registerRequest "reg-challenge")).2 (some uid)
        = some { id := uid, email := email,
                 passKey := some
                   { id := info.credentialID, publicKey := info.credentialPublicKey,
                     counter := info.counter, deviceType := info.credentialDeviceType,
                     backedUp := info.credentialBackedUp,
                     transports := r.transports.getD ["internal"] },
                 firebaseUid := fuid, createdAt := 5 } ∧
      (verifyRegister sampleEnv [] 5 (registerRequest "reg-challenge")).1.body
        = .fields [("verified", .bool true), ("userId", .str uid), ("email", .str email)] :=
  ⟨by decide,
    verifyRegister_persists_credential sampleEnv [] 5 (registerRequest "reg-challenge")
      (by decide)⟩

/-! ## The registration session -/

theorem credentialCount_perm (l₁ l₂ : Collection) (email : String) (h : l₁.Perm l₂) :
    credentialCount l₁ email = credentialCount l₂ email :=
  (h.filter _).length_eq

theorem credentialCount_eq_zero (l : Collection) (email : String)
    (hzero : ∀ u ∈ l, u.email = email → u.passKey = none) : credentialCount l email = 0 := by
  unfold credentialCount
  rw [List.length_eq_zero, List.filter_eq_nil_iff]
  intro u hu
  by_cases hue : u.email = email
  · simp [hzero u hu hue]
  · simp [hue]

/-- After `set` of a document with a passKey, a collection that held no
credential for its email holds exactly one. -/
theorem credentialCount_docSet (db : Collection) (path : List String) (d : UserDoc)
    (email : String) (hzero : ∀ u ∈ db, u.email = email → u.passKey = none)
    (he : d.email = email) (hpk : d.passKey.isSome = true) :
    credentialCount (docSet db path d) email = 1 := by
  unfold docSet
  rw [credentialCount_perm _ _ email (insertDoc_perm d _)]
  have hrest : credentialCount (db.filter (fun x => decide (docKey x ≠ some path))) email = 0 :=
    credentialCount_eq_zero _ email (fun u hu => hzero u (List.mem_filter.mp hu).1)
  unfold credentialCount at hrest ⊢
  rw [List.filter_cons_of_pos (by simp [he, hpk]), List.length_cons, hrest]

/-- The session cookie set by `/init-register` carries the drawn id, the email
of the request, the directory uid and the challenge of the options. -/
theorem initRegister_cookie (env : Env) (db : Collection) (uuid : String) (req : Request)
    (v : CookieValue) (h : cookieSet (initRegister env db uuid req).1 "regInfo" = some v) :
    ∃ uid ch, v = .object { userId := some uuid, email := req.queryEmail,
                            firebaseUid := some uid, challenge := some ch } := by
  unfold initRegister at h
  cases hq : req.queryEmail with
  | none => simp [hq, truthy, cookieSet, errorResponse] at h
  | some email =>
    rw [hq] at h
    by_cases he : truthy (some email) = true
    · simp only [he, if_true, Option.getD_some] at h
      cases hd : env.directoryLookup email with
      | userNotFound => simp [hd, cookieSet, errorResponse] at h
      | failure => simp [hd, cookieSet, errorResponse] at h
      | found uid =>
        simp only [hd] at h
        cases hc : getUserByEmailWithCredentials db (some email) with
        | some u => simp [hc, cookieSet, errorResponse] at h
        | none =>
          simp only [hc] at h
          split at h
          · simp [cookieSet, errorResponse] at h
          · rename_i options _
            simp [cookieSet, sessionCookie] at h
            exact ⟨uid, options.challenge, h.symm⟩
    · simp [he, cookieSet, errorResponse] at h

theorem verifyRegister_no_cookie (env : Env) (db : Collection) (now : Nat) (req : Request) :
    verifyRegister env db now { req with regInfo := none }
      = (errorResponse 400 "Registration session expired. Please try again.", db) := by
  simp [verifyRegister, readSession, emptySession, truthy]

/-- C1, as stated, fails: `/init-register` for `ada@example.com`, which has no
credential, sets the session cookie; a `/verify-register` presenting it with
an accepted response is answered 200 and stores one credential; a second
`/verify-register` presenting the same cookie and the same response is
answered 200 again, not with the session-expired error, and writes the document
again (its `createdAt` changes). -/
theorem replayed_registration_accepted :
    cookieSet (initRegister sampleEnv [] "u-1"
        { blankRequest with queryEmail := some "ada@example.com" }).1 "regInfo"
      = (registerRequest "reg-challenge").regInfo ∧
    verifyRegister sampleEnv [] 5 (registerRequest "reg-challenge")
      = (registeredResponse sampleRegInfo, [{ sampleDoc 0 with createdAt := 5 }]) ∧
    verifyRegister sampleEnv [{ sampleDoc 0 with createdAt := 5 }] 6
        (registerRequest "reg-challenge")
      = (registeredResponse sampleRegInfo, [{ sampleDoc 0 with createdAt := 6 }]) ∧
    (registeredResponse sampleRegInfo).status = 200 := by
  decide

/-- C1, amended: for an email for which the collection holds no credential,
after `/init-register` and a `/verify-register` that presents the session
cookie it set and is answered 200, the collection holds exactly one credential
for the email and the response clears the `regInfo` cookie; a second
`/verify-register` with the same body that no longer presents the cookie is
answered 400 with the session-expired error and the collection is as it was. -/
theorem registration_session_cleared (env : Env) (db : Collection) (uuid : String)
    (now : Nat) (reqInit req : Request) (email : String)
    (hq : reqInit.queryEmail = some email)
    (hzero : ∀ u ∈ db, u.email = email → u.passKey = none)
    (hcookie : req.regInfo = cookieSet (initRegister env db uuid reqInit).1 "regInfo")
    (h200 : (verifyRegister env db now req).1.status = 200) :
    credentialCount (verifyRegister env db now req).2 email = 1 ∧
    (verifyRegister env db now req).1.cleared = ["regInfo"] ∧
    ∀ now2, verifyRegister env (verifyRegister env db now req).2 now2 { req with regInfo := none }
      = (errorResponse 400 "Registration session expired. Please try again.",
         (verifyRegister env db now req).2) := by
  obtain ⟨s, v, info, r, db', hs, hch, _, _, _, _, hcu, hres⟩ :=
    verifyRegister_success_inv env db now req h200
  obtain ⟨i, e, f, path, _, _, he, _, hdb⟩ := createUser_ok_inv _ _ _ _ _ _ _ hcu
  have hse : s.email = some email := by
    cases hc : cookieSet (initRegister env db uuid reqInit).1 "regInfo" with
    | none =>
      rw [hcookie, hc] at hs
      simp only [readSession] at hs
      injection hs with hs
      subst hs
      simp [emptySession, truthy] at hch
    | some c =>
      obtain ⟨uid, ch, hcv⟩ := initRegister_cookie env db uuid reqInit c hc
      rw [hcookie, hc, hcv] at hs
      simp only [readSession, parseSession] at hs
      injection hs with hs
      subst hs
      exact hq
  have hee : e = email := by
    rw [he] at hse
    injection hse
  refine ⟨?_, ?_, ?_⟩
  · rw [hres, hdb]
    exact credentialCount_docSet db path _ email hzero hee rfl
  · rw [hres]
    rfl
  · intro now2
    exact verifyRegister_no_cookie env _ now2 req

/-- An instance of `registration_session_cleared`: the registration of
`ada@example.com` on an empty collection. -/
theorem registration_session_cleared_witness :
    ({ blankRequest with queryEmail := some "ada@example.com" } : Request).queryEmail
      = some "ada@example.com" ∧
    (∀ u ∈ ([] : Collection), u.email = "ada@example.com" → u.passKey = none) ∧
    (registerRequest "reg-challenge").regInfo
      = cookieSet (initRegister sampleEnv [] "u-1"
          { blankRequest with queryEmail := some "ada@example.com" }).1 "regInfo" ∧
    (verifyRegister sampleEnv [] 5 (registerRequest "reg-challenge")).1.status = 200 ∧
    (credentialCount (verifyRegister sampleEnv [] 5 (registerRequest "reg-challenge")).2
        "ada@example.com" = 1 ∧
     (verifyRegister sampleEnv [] 5 (registerRequest "reg-challenge")).1.cleared = ["regInfo"] ∧
     ∀ now2, verifyRegister sampleEnv
        (verifyRegister sampleEnv [] 5 (registerRequest "reg-challenge")).2 now2
        { registerRequest "reg-challenge" with regInfo := none }
      = (errorResponse 400 "Registration session expired. Please try again.",
         (verifyRegister sampleEnv [] 5 (registerRequest "reg-challenge")).2)) :=
  ⟨rfl, by decide, by decide, by decide,
    registration_session_cleared sampleEnv [] "u-1" 5
      { blankRequest with queryEmail := some "ada@example.com" }
      (registerRequest "reg-challenge") "ada@example.com" rfl (by decide) (by decide)
      (by decide)⟩

/-! ## The age of the registration session -/

/-- C4, as stated, fails: the session cookie set by `/init-register` is presented
to `/verify-register` when the clock reads more than five minutes
(`sessionMaxAge` ms) past the time 0 of the init; the call is answered 200
and the credential is stored. -/
theorem expired_session_accepted :
    cookieSet (initRegister sampleEnv [] "u-1"
        { blankRequest with queryEmail := some "ada@example.com" }).1 "regInfo"
      = (registerRequest "reg-challenge").regInfo ∧
    0 + sessionMaxAge < 600000 ∧
    verifyRegister sampleEnv [] 600000 (registerRequest "reg-challenge")
      = (registeredResponse sampleRegInfo, [{ sampleDoc 0 with createdAt := 600000 }]) ∧
    (registeredResponse sampleRegInfo).status = 200 := by
  decide

theorem createUser_isOk_time (db : Collection) (now now' : Nat) (id email fuid : Option String)
    (pk : PassKey) :
    (∀ e, createUser db now id email pk fuid = .error e →
      createUser db now' id email pk fuid = .error e) ∧
    (∀ d, createUser db now id email pk fuid = .ok d →
      ∃ d', createUser db now' id email pk fuid = .ok d') := by
  unfold createUser
  cases docPath id with
  | none => simp
  | some path =>
    cases id with
    | none => simp
    | some i =>
      cases email with
      | none => simp
      | some e =>
        cases fuid with
        | none => simp
        | some f => simp

/-- The response of `/verify-register` does not depend on the clock. -/
theorem verifyRegister_response_time (env : Env) (db : Collection) (now now' : Nat)
    (req : Request) :
    (verifyRegister env db now req).1 = (verifyRegister env db now' req).1 := by
  unfold verifyRegister
  cases readSession req.regInfo with
  | error e => rfl
  | ok s =>
    simp only []
    split
    · rfl
    · cases env.verifyRegistrationResponse (registrationVerifyInput env req s) with
      | error e => rfl
      | ok v =>
        simp only []
        split
        · rename_i info _ _
          cases req.body.response with
          | none => rfl
          | some r =>
            simp only []
            have ht := createUser_isOk_time db now now' s.userId s.email s.firebaseUid
              (passKeyOf info r)
            cases h1 : createUser db now s.userId s.email (passKeyOf info r) s.firebaseUid with
            | error e => rw [ht.1 e h1]
            | ok d =>
              obtain ⟨d', hd'⟩ := ht.2 d h1
              rw [hd']
        · rfl

/-- C4, amended: the expiry of the registration session is left to the client.
An `/init-register` call answered 200 sets exactly one cookie, `regInfo`, with
a `maxAge` of 5 minutes (300000 ms); a `/verify-register` call that presents
no `regInfo` cookie is answered 400 with the session-expired error, whatever
it posts, and the collection is as it was; and the response to a call does not
depend on the time of the call. -/
theorem session_expiry_left_to_client (env : Env) (db : Collection) (uuid : String)
    (now now' : Nat) (reqInit req : Request)
    (hinit : (initRegister env db uuid reqInit).1.status = 200) :
    (∃ c, (initRegister env db uuid reqInit).1.cookies = [c] ∧
      c.name = "regInfo" ∧ c.maxAge = 300000) ∧
    verifyRegister env db now { req with regInfo := none }
      = (errorResponse 400 "Registration session expired. Please try again.", db) ∧
    (verifyRegister env db now req).1 = (verifyRegister env db now' req).1 := by
  refine ⟨?_, verifyRegister_no_cookie env db now req,
    verifyRegister_response_time env db now now' req⟩
  unfold initRegister at hinit ⊢
  cases ht : truthy reqInit.queryEmail with
  | false => simp [ht, errorResponse] at hinit
  | true =>
    simp only [ht, if_true] at hinit ⊢
    cases hd : env.directoryLookup (reqInit.queryEmail.getD "") with
    | userNotFound => simp [hd, errorResponse] at hinit
    | failure => simp [hd, errorResponse] at hinit
    | found uid =>
      simp only [hd] at hinit ⊢
      cases hc : getUserByEmailWithCredentials db (some (reqInit.queryEmail.getD "")) with
      | some u => simp [hc, errorResponse] at hinit
      | none =>
        simp only [hc] at hinit ⊢
        split
        · rename_i hg
          simp [hg, errorResponse] at hinit
        · exact ⟨_, rfl, rfl, rfl⟩

/-- An instance of `session_expiry_left_to_client`: the registration of
`ada@example.com`, with calls at the times 5 and 600000. -/
theorem session_expiry_left_to_client_witness :
    (initRegister sampleEnv [] "u-1"
      { blankRequest with queryEmail := some "ada@example.com" }).1.status = 200 ∧
    ((∃ c, (initRegister sampleEnv [] "u-1"
        { blankRequest with queryEmail := some "ada@example.com" }).1.cookies = [c] ∧
      c.name = "regInfo" ∧ c.maxAge = 300000) ∧
     verifyRegister sampleEnv [] 5 { registerRequest "reg-challenge" with regInfo := none }
      = (errorResponse 400 "Registration session expired. Please try again.", []) ∧
     (verifyRegister sampleEnv [] 5 (registerRequest "reg-challenge")).1
      = (verifyRegister sampleEnv [] 600000 (registerRequest "reg-challenge")).1) :=
  ⟨by decide,
    session_expiry_left_to_client sampleEnv [] "u-1" 5 600000
      { blankRequest with queryEmail := some "ada@example.com" }
      (registerRequest "reg-challenge") (by decide)⟩

/-! ## The signature counter -/

/-- A `/verify-auth` call that runs alone is its two steps on one state. -/
theorem verifyAuth_eq_read_write (env : Env) (db : Collection) (req : Request) :
    verifyAuth env db req
      = match verifyAuthRead env db req with
        | .error r => (r, db)
        | .ok p => verifyAuthWrite db p := by
  unfold verifyAuth verifyAuthRead verifyAuthWrite
  cases readSession req.authInfo with
  | error e => rfl
  | ok s =>
    simp only []
    split
    · rfl
    · cases getUserById db s.userId with
      | none => rfl
      | some u =>
        simp only []
        cases u.passKey with
        | none => rfl
        | some pk =>
          simp only []
          cases env.verifyAuthenticationResponse (authenticationVerifyInput env req s pk) with
          | error e => rfl
          | ok v => rfl

/-- C3, as stated, fails, with a verifier that follows the counter rule of the
WebAuthn library.  A response with counter 0 for a credential whose stored
counter is 0 is not strictly greater, and `/verify-auth` answers 200 and writes
it.  And two calls that both read the stored counter 5 before either writes,
one verified with counter 7 and one with counter 6, are both answered 200; the
first write stores 7 and the second stores 6, not strictly greater than the 7
stored at the time of its write: the stored counter goes down. -/
theorem counter_write_not_guarded :
    storedCounter [sampleDoc 0] "u-1" = some 0 ∧
    verifyAuthRead sampleEnv [sampleDoc 0] (authRequest "auth-challenge" 0)
      = .ok { user := sampleDoc 0, verification := { verified := true, newCounter := 0 } } ∧
    (verifyAuth sampleEnv [sampleDoc 0] (authRequest "auth-challenge" 0)).1.status = 200 ∧
    verifyAuthRead sampleEnv [sampleDoc 5] (authRequest "auth-challenge" 7)
      = .ok { user := sampleDoc 5, verification := { verified := true, newCounter := 7 } } ∧
    verifyAuthRead sampleEnv [sampleDoc 5] (authRequest "auth-challenge" 6)
      = .ok { user := sampleDoc 5, verification := { verified := true, newCounter := 6 } } ∧
    (verifyAuthWrite [sampleDoc 5]
      { user := sampleDoc 5,
        verification := { verified := true, newCounter := 7 } }).2 = [sampleDoc 7] ∧
    (verifyAuthWrite [sampleDoc 7]
      { user := sampleDoc 5,
        verification := { verified := true, newCounter := 6 } }).1.status = 200 ∧
    storedCounter [sampleDoc 7] "u-1" = some 7 ∧
    storedCounter (verifyAuthWrite [sampleDoc 7]
      { user := sampleDoc 5,
        verification := { verified := true, newCounter := 6 } }).2 "u-1" = some 6 :=
  ⟨by decide, rfl, by decide, rfl, rfl, by decide, by decide, by decide, by decide⟩

theorem getUserById_some_inv (db : Collection) (id : Option String) (u : UserDoc)
    (h : getUserById db id = some u) :
    ∃ path, docPath id = some path ∧ docKey u = some path ∧ u ∈ db := by
  unfold getUserById at h
  cases hp : docPath id with
  | none => simp [hp] at h
  | some path =>
    rw [hp] at h
    simp only [] at h
    have h1 := List.find?_some h
    have h2 := List.mem_of_find?_eq_some h
    exact ⟨path, rfl, by simpa using h1, h2⟩

/-- The documents after `update({"passKey.counter": counter})` on the document
that the id of `u` names. -/
theorem updateUserCounter_ok (db : Collection) (u : UserDoc) (path : List String)
    (counter : Nat) (hu : u ∈ db) (hk : docKey u = some path) :
    updateUserCounter db u.id counter
      = .ok (db.map (fun x =>
          if docKey x = some path then { x with passKey := setCounter counter x.passKey }
          else x)) := by
  unfold updateUserCounter
  have hp : docPath (some u.id) = some path := hk
  have hany : db.any (fun x => decide (docKey x = some path)) = true :=
    List.any_eq_true.mpr ⟨u, hu, by simp [hk]⟩
  simp [hp, hany]

theorem find_map_counter (path p' : List String) (counter : Nat) (l : Collection) :
    (l.map (fun x =>
        if docKey x = some path then { x with passKey := setCounter counter x.passKey }
        else x)).find? (fun x => decide (docKey x = some p'))
      = (l.find? (fun x => decide (docKey x = some p'))).map (fun x =>
          if docKey x = some path then { x with passKey := setCounter counter x.passKey }
          else x) := by
  induction l with
  | nil => rfl
  | cons y ys ih =>
    have hid : docKey (if docKey y = some path then
        { y with passKey := setCounter counter y.passKey } else y) = docKey y := by
      split <;> rfl
    by_cases hy : docKey y = some p'
    · rw [List.map_cons, List.find?_cons_of_pos _ (by simpa [hid] using hy),
        List.find?_cons_of_pos _ (by simpa using hy)]
      rfl
    · rw [List.map_cons, List.find?_cons_of_neg _ (by simpa [hid] using hy),
        List.find?_cons_of_neg _ (by simpa using hy)]
      exact ih

/-- The stored counters after `update({"passKey.counter": counter})` on the
document at `path`: the counter there is the one written, the others are
kept. -/
theorem storedCounter_map_counter (db : Collection) (path : List String) (i : String)
    (counter : Nat) :
    storedCounter (db.map (fun x =>
        if docKey x = some path then { x with passKey := setCounter counter x.passKey }
        else x)) i
      = if docPath (some i) = some path then (getUserById db (some i)).map (fun _ => counter)
        else storedCounter db i := by
  unfold storedCounter getUserById
  cases hp : docPath (some i) with
  | none => simp
  | some p' =>
    simp only []
    rw [find_map_counter]
    cases hf : db.find? (fun x => decide (docKey x = some p')) with
    | none => by_cases hpp : p' = path <;> simp [hpp]
    | some y =>
      have hy : docKey y = some p' := by simpa using List.find?_some hf
      by_cases hpp : p' = path
      · subst hpp
        cases hpk : y.passKey <;> simp [hy, setCounter, hpk]
      · have hyk : ¬ docKey y = some path := by
          rw [hy]
          intro e
          exact hpp (Option.some.inj e)
        have hne : ¬ (some p' : Option (List String)) = some path :=
          fun e => hpp (Option.some.inj e)
        simp [hyk, hne]

/-- The two outcomes of `/verify-auth` for the collection: it is left as it
was, or the verifier accepted the response for the credential of the session
and the counter it reported was written on the document of the session. -/
theorem verifyAuth_cases (env : Env) (db : Collection) (req : Request) :
    ((verifyAuth env db req).1.status = 400 ∧ (verifyAuth env db req).2 = db) ∨
    ∃ s u pk v path, readSession req.authInfo = .ok s ∧ truthy s.challenge = true ∧
      getUserById db s.userId = some u ∧ docPath s.userId = some path ∧
      u.passKey = some pk ∧
      env.verifyAuthenticationResponse (authenticationVerifyInput env req s pk) = .ok v ∧
      v.verified = true ∧
      (verifyAuth env db req).1.status = 200 ∧
      (verifyAuth env db req).2 = db.map (fun x =>
        if docKey x = some path then { x with passKey := setCounter v.newCounter x.passKey }
        else x) := by
  unfold verifyAuth
  cases hs : readSession req.authInfo with
  | error e => exact Or.inl ⟨rfl, rfl⟩
  | ok s =>
    simp only []
    cases hch : truthy s.challenge with
    | false => exact Or.inl ⟨rfl, rfl⟩
    | true =>
      simp only [Bool.not_true, Bool.false_eq_true, if_false]
      cases hu : getUserById db s.userId with
      | none => exact Or.inl ⟨rfl, rfl⟩
      | some u =>
        simp only []
        cases hpk : u.passKey with
        | none => exact Or.inl ⟨rfl, rfl⟩
        | some pk =>
          simp only []
          cases hv : env.verifyAuthenticationResponse
              (authenticationVerifyInput env req s pk) with
          | error e => exact Or.inl ⟨rfl, rfl⟩
          | ok v =>
            simp only []
            cases hver : v.verified with
            | false => exact Or.inl ⟨rfl, rfl⟩
            | true =>
              obtain ⟨path, hpath, hkey, hmem⟩ := getUserById_some_inv db s.userId u hu
              have hupd := updateUserCounter_ok db u path v.newCounter hmem hkey
              rw [if_pos rfl, hupd]
              exact Or.inr ⟨s, u, pk, v, path, rfl, hch, hu, hpath, hpk, hv, hver, rfl, rfl⟩

/-- When the verifier accepts, `/verify-auth` answers 200 and the counter it
reported is the stored counter afterwards, whatever was stored before. -/
theorem verifyAuth_accepted (env : Env) (db : Collection) (req : Request)
    (s : SessionInfo) (u : UserDoc) (pk : PassKey) (v : AuthenticationVerification)
    (hs : readSession req.authInfo = .ok s) (hch : truthy s.challenge = true)
    (hu : getUserById db s.userId = some u) (hpk : u.passKey = some pk)
    (hv : env.verifyAuthenticationResponse (authenticationVerifyInput env req s pk) = .ok v)
    (hver : v.verified = true) :
    (verifyAuth env db req).1.status = 200 ∧
    storedCounter (verifyAuth env db req).2 u.id = some v.newCounter := by
  obtain ⟨path, hpath, hkey, hmem⟩ := getUserById_some_inv db s.userId u hu
  have hupd := updateUserCounter_ok db u path v.newCounter hmem hkey
  have hres : (verifyAuth env db req).1.status = 200 ∧
      (verifyAuth env db req).2 = db.map (fun x =>
        if docKey x = some path then { x with passKey := setCounter v.newCounter x.passKey }
        else x) := by
    simp [verifyAuth, hs, hch, hu, hpk, hv, hver, hupd]
  refine ⟨hres.1, ?_⟩
  have hp : docPath (some u.id) = some path := hkey
  rw [hres.2, storedCounter_map_counter, if_pos hp]
  have : getUserById db (some u.id) = some u := by
    unfold getUserById at hu ⊢
    rw [hp]
    rw [hpath] at hu
    exact hu
  rw [this]
  rfl

/-- One `/verify-auth` call does not lower a stored counter when the verifier
never accepts with a counter below the one it was given. -/
theorem verifyAuth_counter_step (env : Env)
    (hmono : ∀ inp v, env.verifyAuthenticationResponse inp = .ok v → v.verified = true →
      inp.counter ≤ v.newCounter)
    (db : Collection) (req : Request) (id : String) (n : Nat)
    (h : storedCounter db id = some n) :
    ∃ m, storedCounter (verifyAuth env db req).2 id = some m ∧ n ≤ m := by
  rcases verifyAuth_cases env db req with
    ⟨_, hsame⟩ | ⟨s, u, pk, v, path, _, _, hu, hpath, hpk, hv, hver, _, hdb⟩
  · exact ⟨n, by rw [hsame]; exact h, le_refl n⟩
  · rw [hdb, storedCounter_map_counter]
    by_cases hid : docPath (some id) = some path
    · have hget : getUserById db (some id) = some u := by
        unfold getUserById at hu ⊢
        rw [hid]
        rw [hpath] at hu
        exact hu
      have hn : pk.counter = n := by
        have h' := h
        simp only [storedCounter, hget] at h'
        simpa [hpk] using h'
      have hle := hmono _ v hv hver
      simp only [authenticationVerifyInput] at hle
      refine ⟨v.newCounter, ?_, hn ▸ hle⟩
      rw [if_pos hid, hget]
      rfl
    · exact ⟨n, by rw [if_neg hid]; exact h, le_refl n⟩

/-- C3, amended: the handler writes the counter unconditionally.  Whenever the
verifier accepts, `/verify-auth` answers 200 and the stored counter of the
credential becomes the counter the verifier reported, whatever was stored (a
report equal to the stored counter is written too).  When the verifier never
accepts with a counter below the one it was given, the stored counter of a
credential does not decrease across any sequence of `/verify-auth` calls. -/
theorem counter_follows_verifier (env : Env)
    (hmono : ∀ inp v, env.verifyAuthenticationResponse inp = .ok v → v.verified = true →
      inp.counter ≤ v.newCounter)
    (db : Collection) (reqs : List Request) (id : String) (n : Nat)
    (h : storedCounter db id = some n) :
    (∀ req s u pk v, readSession req.authInfo = .ok s → truthy s.challenge = true →
      getUserById db s.userId = some u → u.passKey = some pk →
      env.verifyAuthenticationResponse (authenticationVerifyInput env req s pk) = .ok v →
      v.verified = true →
      (verifyAuth env db req).1.status = 200 ∧
      storedCounter (verifyAuth env db req).2 u.id = some v.newCounter) ∧
    ∃ m, storedCounter (runVerifyAuth env db reqs) id = some m ∧ n ≤ m := by
  refine ⟨fun req s u pk v => verifyAuth_accepted env db req s u pk v, ?_⟩
  induction reqs generalizing db n with
  | nil => exact ⟨n, h, le_refl n⟩
  | cons req reqs ih =>
    obtain ⟨m, hm, hnm⟩ := verifyAuth_counter_step env hmono db req id n h
    obtain ⟨m', hm', hmm'⟩ := ih (verifyAuth env db req).2 m hm
    exact ⟨m', hm', le_trans hnm hmm'⟩

/-- The verifier of `sampleEnv` never accepts with a counter below the one it
was given. -/
theorem sampleEnv_counter_rule (inp : AuthenticationVerifyInput)
    (v : AuthenticationVerification)
    (h : sampleEnv.verifyAuthenticationResponse inp = .ok v) (_ : v.verified = true) :
    inp.counter ≤ v.newCounter := by
  simp only [sampleEnv, sampleVerifyAuthentication] at h
  split at h
  · cases h
  · split at h
    · split at h
      · cases h
      · rename_i r _ _ hcnt
        injection h with h
        subst h
        simp only []
        omega
    · cases h

/-- An instance of `counter_follows_verifier`: the verifier with the counter rule
of the library, and two calls with the counters 7 and 6 on a stored counter 5. -/
theorem counter_follows_verifier_witness :
    (∀ inp v, sampleEnv.verifyAuthenticationResponse inp = .ok v → v.verified = true →
      inp.counter ≤ v.newCounter) ∧
    storedCounter [sampleDoc 5] "u-1" = some 5 ∧
    ((∀ req s u pk v, readSession req.authInfo = .ok s → truthy s.challenge = true →
      getUserById [sampleDoc 5] s.userId = some u → u.passKey = some pk →
      sampleEnv.verifyAuthenticationResponse
        (authenticationVerifyInput sampleEnv req s pk) = .ok v →
      v.verified = true →
      (verifyAuth sampleEnv [sampleDoc 5] req).1.status = 200 ∧
      storedCounter (verifyAuth sampleEnv [sampleDoc 5] req).2 u.id = some v.newCounter) ∧
     ∃ m, storedCounter (runVerifyAuth sampleEnv [sampleDoc 5]
        [authRequest "auth-challenge" 7, authRequest "auth-challenge" 6]) "u-1" = some m ∧
      5 ≤ m) :=
  ⟨sampleEnv_counter_rule, by decide,
    counter_follows_verifier sampleEnv sampleEnv_counter_rule [sampleDoc 5]
      [authRequest "auth-challenge" 7, authRequest "auth-challenge" 6] "u-1" 5 (by decide)⟩


end Server
